import Mathlib

/-!
Verification of the TalentScout hiring-assistant intake application
(`app.py`, `supabase_client.py`, `config.py`).

The embedding works over `PyStr := List Char`, a shallow model of Python
strings in which every operation is structurally recursive, so that all
definitions evaluate inside the kernel.  Python dictionaries are modelled
as insertion-ordered association lists (`Dict`), with `dictGet` /
`dictSet` / `dictDel` mirroring `d.get`, `d[k] = v` and `del d[k]`.
External collaborators (the `validators` library's URL check, the Ollama
HTTP endpoint, the Supabase insert, the local file system) are passed in
as explicit parameters, exactly where the Python code calls out to them.
-/

/-- Model of a Python `str` as its sequence of code points. -/
abbrev PyStr := List Char

/-- Python's whitespace predicate used by `str.strip()`:
space, tab, newline, carriage return, vertical tab, form feed. -/
def pyIsSpace (c : Char) : Bool :=
  c = ' ' || c = '\t' || c = '\n' || c = '\r' || c = Char.ofNat 11 || c = Char.ofNat 12

/-- Python `s.strip()`: remove whitespace from both ends. -/
def pyStrip (l : PyStr) : PyStr :=
  ((l.dropWhile pyIsSpace).reverse.dropWhile pyIsSpace).reverse

/-- Python `s.split(c)` for a single-character separator. -/
def splitChar (c : Char) : PyStr → List PyStr
  | [] => [[]]
  | x :: xs =>
    if x = c then [] :: splitChar c xs
    else
      match splitChar c xs with
      | [] => [[x]]
      | s :: ss => (x :: s) :: ss

/-- Python `s.split(c, 1)`: `some (before, after)` split at the first
occurrence of `c`, `none` when `c` does not occur. -/
def splitFirst (c : Char) : PyStr → Option (PyStr × PyStr)
  | [] => none
  | x :: xs =>
    if x = c then some ([], xs)
    else (splitFirst c xs).map (fun p => (x :: p.1, p.2))

/-- Worker for `splitSub`, fuelled so that the recursion is structural.
Fuel at least the length of the text is always sufficient because each
step consumes at least one character. -/
def splitSubAux (sep : PyStr) : Nat → PyStr → PyStr → List PyStr
  | 0, acc, rest => [acc.reverse ++ rest]
  | _ + 1, acc, [] => [acc.reverse]
  | fuel + 1, acc, c :: rest =>
    if sep.isPrefixOf (c :: rest) then
      acc.reverse :: splitSubAux sep fuel [] ((c :: rest).drop sep.length)
    else
      splitSubAux sep fuel (c :: acc) rest

/-- Python `s.split(sep)` for a non-empty multi-character separator:
non-overlapping, left-to-right. -/
def splitSub (sep text : PyStr) : List PyStr :=
  splitSubAux sep text.length [] text

/-- The character class `[a-zA-Z0-9]` of the Loom URL regexes. -/
def isAlnum (c : Char) : Bool :=
  ('a' ≤ c && c ≤ 'z') || ('A' ≤ c && c ≤ 'Z') || ('0' ≤ c && c ≤ '9')

/-!  ## Validators (`app.py` lines 70-89) -/

/-- The four whitelist patterns of `validate_loom_url` (`app.py`
lines 82-87), each reduced to its literal prefix; the regexes append
`[a-zA-Z0-9]+` to these prefixes. -/
def loomMarkerList : List PyStr :=
  ["https://www.loom.com/share/".data,
   "https://loom.com/share/".data,
   "https://www.loom.com/embed/".data,
   "https://loom.com/embed/".data]

/-- Model of `re.match(pat + "[a-zA-Z0-9]+", s)` for a literal `pat`:
anchored at the start, the pattern prefix must be present and be followed
by at least one alphanumeric character; anything may follow. -/
def loomMatch (pat s : PyStr) : Bool :=
  pat.isPrefixOf s &&
    (match s.drop pat.length with
     | [] => false
     | c :: _ => isAlnum c)

/-- Model of `validate_loom_url` (`app.py` lines 70-89).  The general URL
check performed by the external `validators.url` library is passed in as
the parameter `validators_url`. -/
def validate_loom_url (validators_url : PyStr → Bool) (url : PyStr) : Bool :=
  if url.isEmpty then false
  else if validators_url url = false then false
  else loomMarkerList.any (fun pat => loomMatch pat (pyStrip url))

/-!  ## Ollama client (`app.py` lines 23-39) -/

/-- Outcome of the `requests.post` call plus `response.json()` in
`get_ai_response`: `failure` covers every exception raised inside the
`try` block (network error, timeout, invalid JSON body), `success r`
a parsed JSON body whose `"response"` field is `r` (`none` when the
field is absent). -/
inductive OllamaOutcome where
  | failure (msg : String)
  | success (responseField : Option String)

/-- Model of `get_ai_response` (`app.py` lines 23-39). -/
def get_ai_response (service : String → String → OllamaOutcome)
    (prompt system_msg : String) : String :=
  match service prompt system_msg with
  | .failure e => "Connection error: " ++ e ++ ". Make sure Ollama is running!"
  | .success (some r) => r
  | .success none => "Sorry, I couldn't process that."

/-!  ## Question-reply parsing (`generate_questions`, `app.py` lines 593-645) -/

/-- The literal split marker of `app.py` line 596. -/
def questionMarker : PyStr := "**Question ".data

/-- Per-block parser state: `question_found`, `main_question`,
`hints_list`, `recommended_time` of `app.py` lines 610-616. -/
structure BlockState where
  question_found : Bool
  main_question : PyStr
  hints : List PyStr
  recommended_time : PyStr

/-- Initial per-block state (`app.py` lines 610-616). -/
def initBlockState : BlockState := ⟨false, [], [], []⟩

/-- The header prefix `f'**Question {question_num}:'` of `app.py` line 622. -/
def headerOf (qnum : Nat) : PyStr :=
  "**Question ".data ++ (Nat.repr qnum).data ++ [':']

/-- Strip a leading `**` then re-strip (`app.py` lines 628-629). -/
def stripLeadBold (s : PyStr) : PyStr :=
  if List.isPrefixOf "**".data s then pyStrip (s.drop 2) else s

/-- Strip a trailing `**` then re-strip (`app.py` lines 631-632). -/
def stripTrailBold (s : PyStr) : PyStr :=
  if List.isSuffixOf "**".data s then pyStrip (s.take (s.length - 2)) else s

/-- The group of the regex fragment `([^\*]+?)\*` applied at the start of
`s`: the run of non-`*` characters before the first `*`, required to be
non-empty and to be terminated by a `*`. -/
def italicGroup (s : PyStr) : Option PyStr :=
  let pre := s.takeWhile (fun c => c ≠ '*')
  if pre.isEmpty then none
  else if pre.length < s.length then some pre else none

/-- The literal prefix of the hint regex `🎥 \*([^\*]+?)\*` (`app.py` line 636). -/
def hintMarker : PyStr := "🎥 *".data

/-- The literal prefix of the duration regex `📹 \*([^\*]+?)\*` (`app.py` line 637). -/
def timeMarker : PyStr := "📹 *".data

/-- Model of `re.match(marker-prefix + "([^\*]+?)\*", line)` followed by
`.group(1).strip()` (`app.py` lines 636-642). -/
def emojiItalic (marker line : PyStr) : Option PyStr :=
  if marker.isPrefixOf line then (italicGroup (line.drop marker.length)).map pyStrip
  else none

/-- One iteration of the `for line in lines` loop of `app.py`
lines 617-642, for block number `qnum`. -/
def step_line (qnum : Nat) (st : BlockState) (raw : PyStr) : BlockState :=
  let line := pyStrip raw
  if line.isEmpty then st
  else if (headerOf qnum).isPrefixOf line then
    let mq :=
      match splitFirst ':' line with
      | some p => stripTrailBold (stripLeadBold (pyStrip p.2))
      | none => st.main_question
    ⟨true, mq, st.hints, st.recommended_time⟩
  else if st.question_found then
    match emojiItalic hintMarker line with
    | some h => ⟨st.question_found, st.main_question, st.hints ++ [h], st.recommended_time⟩
    | none =>
      match emojiItalic timeMarker line with
      | some t => ⟨st.question_found, st.main_question, st.hints, t⟩
      | none => st
  else st

/-- Parse one question block: rebuild
`full_question_block = "**Question " + block.strip()` (`app.py` line 606),
split into lines and run the line loop. -/
def parse_question_block (qnum : Nat) (block : PyStr) : BlockState :=
  (splitChar '\n' ("**Question ".data ++ pyStrip block)).foldl (step_line qnum) initBlockState

/-- `question_blocks = questions_text.split('**Question ')[1:]`
(`app.py` line 596). -/
def question_blocks (text : PyStr) : List PyStr :=
  (splitSub questionMarker text).tail

/-- One parsed question record (ordinal, question text, hints, duration). -/
structure InterviewQuestion where
  number : Nat
  question : PyStr
  hints : List PyStr
  recommended_time : PyStr
deriving DecidableEq

/-- The `for i in range(num_questions)` loop of `app.py` lines 603-642
(its parsing part), with `question_num = i + 1`. -/
def parse_blocks_from (idx : Nat) : List PyStr → List InterviewQuestion
  | [] => []
  | b :: bs =>
    let st := parse_question_block idx b
    ⟨idx, st.main_question, st.hints, st.recommended_time⟩ :: parse_blocks_from (idx + 1) bs

/-- The whole reply parser of `generate_questions`: split into blocks,
then parse each block at its positional number. -/
def parse_questions (text : PyStr) : List InterviewQuestion :=
  parse_blocks_from 1 (question_blocks text)

/-- Whether some line of the reconstructed block starts (after stripping)
with the header `**Question <qnum>:` — the condition of `app.py`
line 622 holding for at least one line of the block. -/
def block_has_header (qnum : Nat) (block : PyStr) : Bool :=
  (splitChar '\n' ("**Question ".data ++ pyStrip block)).any
    (fun raw => (headerOf qnum).isPrefixOf (pyStrip raw))

/-!  ## Python dictionaries -/

/-- JSON-like values held in the candidate record. -/
inductive Value where
  | vNull
  | vStr (s : String)
  | vNat (n : Nat)
  | vList (l : List String)
  | vObj (entries : List (String × Value))

/-- An insertion-ordered Python dictionary. -/
abbrev Dict := List (String × Value)

/-- Python `d.get(k)` without default: `none` when the key is absent. -/
def dictGet (d : Dict) (k : String) : Option Value :=
  match d with
  | [] => none
  | (k', v) :: rest => if k' = k then some v else dictGet rest k

/-- Python `d[k] = v`: replace in place when the key exists, else append. -/
def dictSet (d : Dict) (k : String) (v : Value) : Dict :=
  match d with
  | [] => [(k, v)]
  | (k', v') :: rest => if k' = k then (k', v) :: rest else (k', v') :: dictSet rest k v

/-- Python `del d[k]`. -/
def dictDel (d : Dict) (k : String) : Dict :=
  match d with
  | [] => []
  | (k', v') :: rest => if k' = k then rest else (k', v') :: dictDel rest k

/-- Python `d.get(k)` coerced to a `Value` (`None` for a missing key). -/
def pyGet (d : Dict) (k : String) : Value := (dictGet d k).getD Value.vNull

/-- Python `d.get(k, default)`. -/
def pyGetD (d : Dict) (k : String) (default : Value) : Value := (dictGet d k).getD default

/-!  ## Persistence gateway (`supabase_client.py`) -/

/-- The field projection `supabase_data` built by
`SupabaseClient.save_candidate` (`supabase_client.py` lines 19-35). -/
def supabase_data (candidate_data : Dict) : Dict :=
  [("name", pyGet candidate_data "name"),
   ("email", pyGet candidate_data "email"),
   ("phone", pyGet candidate_data "phone"),
   ("experience", pyGet candidate_data "experience"),
   ("position", pyGet candidate_data "position"),
   ("location", pyGet candidate_data "location"),
   ("programming_languages", pyGetD candidate_data "programming_languages" (Value.vList [])),
   ("frameworks", pyGetD candidate_data "frameworks" (Value.vList [])),
   ("databases", pyGetD candidate_data "databases" (Value.vList [])),
   ("tools", pyGetD candidate_data "tools" (Value.vList [])),
   ("cloud_platforms", pyGetD candidate_data "cloud_platforms" (Value.vList [])),
   ("other_skills", pyGet candidate_data "other_skills"),
   ("generated_questions", pyGet candidate_data "generated_questions"),
   ("loom_video_url", pyGet candidate_data "loom_video_url"),
   ("status", Value.vStr "submitted")]

/-- The dictionary returned by `save_candidate` / `save_to_json`
(`supabase_client.py` lines 38, 60, 62). -/
structure SaveResult where
  success : Bool
  data : Option Dict := none
  fallback : Option String := none
  error : Option String := none

/-- Outcome of `self.supabase.table("candidates").insert(...).execute()`
together with the `result.data[0]` access (`supabase_client.py` line 37):
`inserted row` when both succeed, `raised msg` for any exception. -/
inductive RemoteOutcome where
  | inserted (row : Dict)
  | raised (msg : String)

/-- State of `data/candidates.json` as seen by `save_to_json`
(`supabase_client.py` lines 47-51): the file may be absent, readable
with some entries, or reading may raise. -/
inductive LocalLog where
  | missing
  | readable (entries : List Dict)
  | readRaises (msg : String)

/-- Model of `SupabaseClient.save_to_json` (`supabase_client.py`
lines 44-62).  `writeError` is `some msg` when `json.dump` raises.
Returns the result dictionary, the record object as the caller now sees
it (the Python code mutates `candidate_data` in place), and the new file
content (`none` when the file was not rewritten). -/
def save_to_json (log : LocalLog) (writeError : Option String) (now : String)
    (candidate_data : Dict) (error_msg : String) :
    SaveResult × Dict × Option (List Dict) :=
  match log with
  | .readRaises m => ({ success := false, error := some m }, candidate_data, none)
  | .missing =>
    let cd := dictSet (dictSet candidate_data "timestamp" (Value.vStr now))
        "supabase_error" (Value.vStr error_msg)
    match writeError with
    | some m => ({ success := false, error := some m }, cd, none)
    | none => ({ success := true, fallback := some "json", error := some error_msg }, cd, some [cd])
  | .readable entries =>
    let cd := dictSet (dictSet candidate_data "timestamp" (Value.vStr now))
        "supabase_error" (Value.vStr error_msg)
    match writeError with
    | some m => ({ success := false, error := some m }, cd, none)
    | none =>
      ({ success := true, fallback := some "json", error := some error_msg }, cd,
        some (entries ++ [cd]))

/-- Model of `SupabaseClient.save_candidate` (`supabase_client.py`
lines 15-42): attempt the remote insert of the projected record; on any
exception fall back to `save_to_json` with the captured message. -/
def save_candidate (remote : Dict → RemoteOutcome) (log : LocalLog)
    (writeError : Option String) (now : String) (candidate_data : Dict) :
    SaveResult × Dict × Option (List Dict) :=
  match remote (supabase_data candidate_data) with
  | .inserted row => ({ success := true, data := some row }, candidate_data, none)
  | .raised e => save_to_json log writeError now candidate_data e

/-- Model of `save_candidate_hybrid` (`app.py` lines 144-156): returns
`True` exactly when the save result's `success` field is true. -/
def save_candidate_hybrid (result : SaveResult) : Bool := result.success

/-- Models the external supabase-py client constructor called by
`create_client` (`supabase_client.py` line 13): it raises
`SupabaseException("supabase_url is required")` when the url is `None`
or empty, and `SupabaseException("supabase_key is required")` when the
key is; further shape validation of present credentials is not needed
here and is omitted. -/
def create_client (url key : Option String) : Except String Unit :=
  match url with
  | none => .error "supabase_url is required"
  | some u =>
    if u = "" then .error "supabase_url is required"
    else
      match key with
      | none => .error "supabase_key is required"
      | some k => if k = "" then .error "supabase_key is required" else .ok ()

/-- Model of `SupabaseClient.__init__` (`supabase_client.py` lines 10-13):
read `SUPABASE_URL` and `SUPABASE_KEY` from the environment and call
`create_client` with them, with no exception handler.  `app.py`
lines 140-142 run this constructor at module scope, also with no
handler, so an `Except.error` here is an exception reaching the session. -/
def SupabaseClient_init (env : String → Option String) : Except String Unit :=
  create_client (env "SUPABASE_URL") (env "SUPABASE_KEY")

/-!  ## Wizard submission step (`app.py` lines 233-271, 420-457, 705-729) -/

/-- The `st.session_state.candidate_data.update({...})` of
`collect_basic_info` (`app.py` lines 264-271). -/
def basic_info_update (cd : Dict) (name email phone : String) (experience : Value)
    (position location : String) : Dict :=
  dictSet (dictSet (dictSet (dictSet (dictSet (dictSet cd
    "name" (Value.vStr name))
    "email" (Value.vStr email))
    "phone" (Value.vStr phone))
    "experience" experience)
    "position" (Value.vStr position))
    "location" (Value.vStr location)

/-- The `st.session_state.candidate_data.update({...})` of
`collect_tech_stack` (`app.py` lines 441-455); `all_selected_tech_list`
is the concatenation of all selected category lists (`app.py`
lines 425-436). -/
def tech_stack_update (cd : Dict)
    (languages frontend backend databases cloud devops mobile dataSci testing cms otherTech :
      List String) (additional_skills : String) : Dict :=
  dictSet (dictSet (dictSet (dictSet (dictSet (dictSet (dictSet (dictSet (dictSet (dictSet
  (dictSet (dictSet (dictSet cd
    "programming_languages" (Value.vList languages))
    "frontend_frameworks" (Value.vList frontend))
    "backend_frameworks" (Value.vList backend))
    "databases" (Value.vList databases))
    "cloud_platforms" (Value.vList cloud))
    "devops_tools" (Value.vList devops))
    "mobile_development" (Value.vList mobile))
    "data_science" (Value.vList dataSci))
    "testing_frameworks" (Value.vList testing))
    "cms_ecommerce" (Value.vList cms))
    "other_technologies" (Value.vList otherTech))
    "additional_skills" (Value.vStr additional_skills))
    "all_selected_tech_list"
    (Value.vList (languages ++ frontend ++ backend ++ databases ++ cloud ++ devops ++
      mobile ++ dataSci ++ testing ++ cms ++ otherTech))

/-- The candidate-data update performed at submission (`app.py`
lines 713-721): store `video_responses` and
`generated_questions_full_text`, then delete any `generated_questions`
key. -/
def submission_update (cd : Dict) (video_responses : Value) (full_text : String) : Dict :=
  let cd1 := dictSet cd "video_responses" video_responses
  let cd2 := dictSet cd1 "generated_questions_full_text" (Value.vStr full_text)
  if (dictGet cd2 "generated_questions").isSome then dictDel cd2 "generated_questions" else cd2

/-- Result of one press of "Submit All Responses": the wizard step
afterwards (3 = Questions, 4 = Complete), the aggregate error shown, and
how many times the persistence save was invoked. -/
structure SubmitOutcome where
  step : Nat
  errorMsg : Option String
  saveCalls : Nat
deriving DecidableEq

/-- Model of the submission branch of `generate_questions` (`app.py`
lines 708-729): refuse with an aggregate error while fewer validated
video responses than questions exist, otherwise call the hybrid save
once and advance to step 4 exactly when it reports success. -/
def submit_video_responses (num_questions num_responses : Nat) (saveResult : SaveResult) :
    SubmitOutcome :=
  if num_responses < num_questions then
    { step := 3,
      errorMsg := some "Please provide valid Loom video links for all questions before submitting.",
      saveCalls := 0 }
  else if save_candidate_hybrid saveResult then
    { step := 4, errorMsg := none, saveCalls := 1 }
  else
    { step := 3, errorMsg := none, saveCalls := 1 }

/-!  ## Concrete submission record for claim C1 -/

/-- A raw generator reply for one question, in the format of the prompt
template (`app.py` lines 524-527). -/
def c1_full_text : String :=
  "**Question 1: Explain how Python decorators work.**\n🎥 *Start by explaining your approach or logic*\n🎥 *Walk through a code example or diagram if applicable*\n📹 *Recommended response time: 2-3 minutes*"

/-- The `st.session_state.video_responses` entry stored for a validated
link (`app.py` lines 682-689). -/
def c1_video_responses : Value :=
  Value.vObj [("question_1", Value.vObj
    [("question", Value.vStr "Explain how Python decorators work."),
     ("hints", Value.vList ["Start by explaining your approach or logic",
                            "Walk through a code example or diagram if applicable"]),
     ("recommended_time", Value.vStr "2-3 minutes"),
     ("full_text", Value.vStr c1_full_text),
     ("loom_url", Value.vStr "https://www.loom.com/share/abc123XYZ"),
     ("timestamp", Value.vStr "2026-02-03T10:00:00")])]

/-- The candidate record as `app.py` hands it to `save_candidate_hybrid`
for a completed session of one applicant: basic info, tech stack, then
the submission update. -/
def c1_record : Dict :=
  submission_update
    (tech_stack_update
      (basic_info_update [] "Ada Lovelace" "ada@example.com" "" (Value.vNat 5)
        "Backend Engineer" "London")
      ["Python"] [] [] [] [] [] [] [] [] [] [] "")
    c1_video_responses c1_full_text

/-!  ## Dictionary lemmas -/

theorem dictGet_dictSet_self (d : Dict) (k : String) (v : Value) :
    dictGet (dictSet d k v) k = some v := by
  induction d with
  | nil => simp [dictSet, dictGet]
  | cons hd tl ih =>
    obtain ⟨k', v'⟩ := hd
    by_cases h : k' = k
    · simp [dictSet, dictGet, h]
    · simp [dictSet, dictGet, h, ih]

theorem dictGet_dictSet_ne (d : Dict) (k k' : String) (v : Value) (h : k ≠ k') :
    dictGet (dictSet d k v) k' = dictGet d k' := by
  induction d with
  | nil => simp [dictSet, dictGet, h]
  | cons hd tl ih =>
    obtain ⟨k₀, v₀⟩ := hd
    by_cases h₀ : k₀ = k
    · subst h₀
      simp [dictSet, dictGet, h]
    · simp [dictSet, dictGet, h₀, ih]

theorem dictSet_eq_append (d : Dict) (k : String) (v : Value) (h : dictGet d k = none) :
    dictSet d k v = d ++ [(k, v)] := by
  induction d with
  | nil => simp [dictSet]
  | cons hd tl ih =>
    obtain ⟨k₀, v₀⟩ := hd
    by_cases h₀ : k₀ = k
    · simp [dictGet, h₀] at h
    · simp [dictGet, h₀] at h
      simp [dictSet, h₀, ih h]

theorem dictGet_append_of_none (d₁ d₂ : Dict) (k : String) (h : dictGet d₁ k = none) :
    dictGet (d₁ ++ d₂) k = dictGet d₂ k := by
  induction d₁ with
  | nil => simp
  | cons hd tl ih =>
    obtain ⟨k₀, v₀⟩ := hd
    by_cases h₀ : k₀ = k
    · simp [dictGet, h₀] at h
    · simp [dictGet, h₀] at h ⊢
      exact ih h

/-!  ## Parser lemmas -/

theorem step_line_no_header (qnum : Nat) (st : BlockState) (raw : PyStr)
    (hq : st.question_found = false)
    (hh : (headerOf qnum).isPrefixOf (pyStrip raw) = false) :
    step_line qnum st raw = st := by
  simp [step_line, hq, hh]

theorem foldl_step_line_no_header (qnum : Nat) (ls : List PyStr) (st : BlockState)
    (hq : st.question_found = false)
    (hh : ∀ l ∈ ls, (headerOf qnum).isPrefixOf (pyStrip l) = false) :
    ls.foldl (step_line qnum) st = st := by
  induction ls with
  | nil => rfl
  | cons hd tl ih =>
    rw [List.foldl_cons, step_line_no_header qnum st hd hq (hh hd (by simp))]
    exact ih (fun l hl => hh l (by simp [hl]))

theorem parse_question_block_no_header (qnum : Nat) (block : PyStr)
    (h : block_has_header qnum block = false) :
    parse_question_block qnum block = initBlockState := by
  rw [parse_question_block]
  apply foldl_step_line_no_header
  · rfl
  · intro l hl
    rw [block_has_header, List.any_eq_false] at h
    exact Bool.eq_false_iff.mpr (h l hl)

theorem parse_blocks_from_length (idx : Nat) (bs : List PyStr) :
    (parse_blocks_from idx bs).length = bs.length := by
  induction bs generalizing idx with
  | nil => rfl
  | cons b bs ih => simp [parse_blocks_from, ih]

theorem parse_blocks_from_get? (idx i : Nat) (bs : List PyStr) :
    (parse_blocks_from idx bs).get? i = (bs.get? i).map (fun b =>
      let st := parse_question_block (idx + i) b
      ⟨idx + i, st.main_question, st.hints, st.recommended_time⟩) := by
  induction bs generalizing idx i with
  | nil => simp [parse_blocks_from]
  | cons b bs ih =>
    cases i with
    | zero => simp [parse_blocks_from]
    | succ n =>
      simp only [parse_blocks_from, List.get?_cons_succ, ih (idx + 1) n]
      have harith : idx + 1 + n = idx + (n + 1) := by omega
      rw [harith]

/-!  ## Claim theorems: parser -/

/-- C5: the reply parser splits the raw text on the literal marker
`"**Question "` and discards the segment before the first marker; the
number of parsed questions equals the number of remaining segments; the
questions are numbered sequentially by position (1, 2, 3, …); and a block
in which no `"**Question <n>:"` line is found still contributes a
question whose question text is empty, rather than being dropped. -/
theorem parse_questions_positional (text : PyStr) :
    (parse_questions text).length = (splitSub questionMarker text).length - 1 ∧
    (∀ i q, (parse_questions text).get? i = some q → q.number = i + 1) ∧
    (∀ i q b, (parse_questions text).get? i = some q →
      (question_blocks text).get? i = some b →
      block_has_header (i + 1) b = false → q.question = []) := by
  refine ⟨?_, ?_, ?_⟩
  · rw [parse_questions, parse_blocks_from_length, question_blocks, List.length_tail]
  · intro i q hq
    rw [parse_questions, parse_blocks_from_get?] at hq
    cases hb : (question_blocks text).get? i with
    | none => rw [hb] at hq; simp at hq
    | some b =>
      rw [hb] at hq
      simp only [Option.map_some'] at hq
      have hq' := Option.some.inj hq
      have := congrArg InterviewQuestion.number hq'
      simpa [Nat.add_comm] using this.symm
  · intro i q b hq hb hh
    rw [parse_questions, parse_blocks_from_get?, hb] at hq
    simp only [Option.map_some'] at hq
    have hq' := Option.some.inj hq
    have hblk : parse_question_block (1 + i) b = initBlockState := by
      rw [Nat.add_comm]
      exact parse_question_block_no_header (i + 1) b hh
    have := congrArg InterviewQuestion.question hq'
    rw [← this]
    simp [hblk, initBlockState]

/-- C5 witness: on a concrete two-block reply whose second block carries
no `"**Question 2:"` line, the parser yields two questions, the second is
numbered 2 positionally, and its question text is empty. -/
theorem parse_questions_positional_witness :
    (parse_questions ("Intro\n**Question 1: What is a decorator?**\n🎥 *Hint one*\n**Question oops, no colon").data).length =
      (splitSub questionMarker ("Intro\n**Question 1: What is a decorator?**\n🎥 *Hint one*\n**Question oops, no colon").data).length - 1 ∧
    (parse_questions ("Intro\n**Question 1: What is a decorator?**\n🎥 *Hint one*\n**Question oops, no colon").data).get? 1 =
      some ⟨2, [], [], []⟩ ∧
    (⟨2, [], [], []⟩ : InterviewQuestion).number = 1 + 1 ∧
    (⟨2, [], [], []⟩ : InterviewQuestion).question = [] := by
  have h := parse_questions_positional ("Intro\n**Question 1: What is a decorator?**\n🎥 *Hint one*\n**Question oops, no colon").data
  refine ⟨h.1, by decide, h.2.1 1 ⟨2, [], [], []⟩ (by decide), ?_⟩
  exact h.2.2 1 ⟨2, [], [], []⟩ ("oops, no colon".data) (by decide) (by decide) (by decide)

/-- C10: hint lines and the duration line are collected only after the
`"**Question <n>:"` header line has been found; a block lacking that
header yields an empty hint list and an empty recommended-duration
string even when hint-shaped or duration-shaped lines are present. -/
theorem headerless_block_no_hints (text : PyStr) (i : Nat) (q : InterviewQuestion) (b : PyStr)
    (hq : (parse_questions text).get? i = some q)
    (hb : (question_blocks text).get? i = some b)
    (hh : block_has_header (i + 1) b = false) :
    q.hints = [] ∧ q.recommended_time = [] := by
  rw [parse_questions, parse_blocks_from_get?, hb] at hq
  simp only [Option.map_some'] at hq
  have hq' := Option.some.inj hq
  have hblk : parse_question_block (1 + i) b = initBlockState := by
    rw [Nat.add_comm]
    exact parse_question_block_no_header (i + 1) b hh
  constructor
  · have := congrArg InterviewQuestion.hints hq'
    rw [← this]
    simp [hblk, initBlockState]
  · have := congrArg InterviewQuestion.recommended_time hq'
    rw [← this]
    simp [hblk, initBlockState]

/-- C10 witness: a concrete block that contains a hint-shaped line and a
duration-shaped line but no `"**Question 1:"` header parses to a question
with no hints and an empty duration. -/
theorem headerless_block_no_hints_witness :
    (parse_questions ("**Question without header\n🎥 *Orphan hint*\n📹 *1 minute*").data).get? 0 =
      some ⟨1, [], [], []⟩ ∧
    (⟨1, [], [], []⟩ : InterviewQuestion).hints = [] ∧
    (⟨1, [], [], []⟩ : InterviewQuestion).recommended_time = [] := by
  refine ⟨by decide, ?_⟩
  exact headerless_block_no_hints ("**Question without header\n🎥 *Orphan hint*\n📹 *1 minute*").data 0
    ⟨1, [], [], []⟩ ("without header\n🎥 *Orphan hint*\n📹 *1 minute*".data) (by decide) (by decide)
    (by decide)

/-!  ## Claim theorems: validators -/

theorem pyStrip_all_space (l : PyStr) (h : ∀ c ∈ l, pyIsSpace c = true) : pyStrip l = [] := by
  rw [pyStrip]
  have h1 : l.dropWhile pyIsSpace = [] := by
    rw [List.dropWhile_eq_nil_iff]
    intro x hx
    exact h x hx
  simp [h1]

theorem loomMatch_nil : ∀ pat ∈ loomMarkerList, loomMatch pat [] = false := by decide

/-- C6: `validate_loom_url` returns false for empty or blank input,
returns false whenever the general URL check rejects the string, and —
for a non-empty string the URL check accepts — returns true exactly when
the trimmed string matches one of the four whitelist patterns
`https://[www.]loom.com/share/<alnum>` / `https://[www.]loom.com/embed/<alnum>`
anchored at its start; in particular the three concrete examples. -/
theorem validate_loom_url_whitelist (validators_url : PyStr → Bool) :
    (∀ url, url = [] → validate_loom_url validators_url url = false) ∧
    (∀ url, (∀ c ∈ url, pyIsSpace c = true) → validate_loom_url validators_url url = false) ∧
    (∀ url, validators_url url = false → validate_loom_url validators_url url = false) ∧
    (∀ url, url ≠ [] → validators_url url = true →
      (validate_loom_url validators_url url = true ↔
        loomMarkerList.any (fun pat => loomMatch pat (pyStrip url)) = true)) ∧
    (validators_url ("https://www.loom.com/share/abc123XYZ".data) = true →
      validate_loom_url validators_url ("https://www.loom.com/share/abc123XYZ".data) = true) ∧
    validate_loom_url validators_url ("https://evil.com/share/abc123".data) = false ∧
    validate_loom_url validators_url [] = false := by
  refine ⟨?_, ?_, ?_, ?_, ?_, ?_, rfl⟩
  · intro url h
    subst h
    rfl
  · intro url h
    by_cases hemp : url = []
    · subst hemp
      rfl
    · have hs : pyStrip url = [] := pyStrip_all_space url h
      cases hv : validators_url url with
      | false => simp [validate_loom_url, hv]
      | true =>
        simp only [validate_loom_url, hv, hs]
        have : loomMarkerList.any (fun pat => loomMatch pat []) = false := by decide
        simp [this]
  · intro url h
    simp [validate_loom_url, h]
  · intro url hne hv
    simp [validate_loom_url, hv, List.isEmpty_iff, hne]
  · intro hv
    simp only [validate_loom_url, hv]
    have h1 : ("https://www.loom.com/share/abc123XYZ".data).isEmpty = false := by decide
    have h2 : loomMarkerList.any
        (fun pat => loomMatch pat (pyStrip ("https://www.loom.com/share/abc123XYZ".data))) = true := by
      decide
    simp [h1, h2]
  · cases hv : validators_url ("https://evil.com/share/abc123".data) with
    | false => simp [validate_loom_url, hv]
    | true =>
      simp only [validate_loom_url, hv]
      have h2 : loomMarkerList.any
          (fun pat => loomMatch pat (pyStrip ("https://evil.com/share/abc123".data))) = false := by
        decide
      simp [h2]

/-- C6 witness: the three concrete examples, instantiated with a general
URL check that accepts everything. -/
theorem validate_loom_url_whitelist_witness :
    validate_loom_url (fun _ => true) ("https://www.loom.com/share/abc123XYZ".data) = true ∧
    validate_loom_url (fun _ => true) ("https://evil.com/share/abc123".data) = false ∧
    validate_loom_url (fun _ => true) [] = false := by
  have h := validate_loom_url_whitelist (fun _ => true)
  exact ⟨h.2.2.2.2.1 rfl, h.2.2.2.2.2.1, h.2.2.2.2.2.2⟩

/-- C9: the whitelist match of `validate_loom_url` is prefix-only: for
any string the URL check accepts whose trimmed form starts with a
whitelist pattern followed by at least one alphanumeric character, the
validator returns true regardless of what follows that character. -/
theorem loom_whitelist_match_ignores_suffix (validators_url : PyStr → Bool)
    (url pat rest : PyStr) (c : Char) (hpat : pat ∈ loomMarkerList) (hne : url ≠ [])
    (hv : validators_url url = true) (hc : isAlnum c = true)
    (hs : pyStrip url = pat ++ c :: rest) :
    validate_loom_url validators_url url = true := by
  have hemp : url.isEmpty = false := by
    cases url with
    | nil => exact absurd rfl hne
    | cons a l => rfl
  simp [validate_loom_url, hemp, hv, List.any_eq_true]
  refine ⟨pat, hpat, ?_⟩
  rw [hs, loomMatch]
  have hpre : pat.isPrefixOf (pat ++ c :: rest) = true := by
    rw [List.isPrefixOf_iff_prefix]
    exact List.prefix_append pat (c :: rest)
  rw [hpre, List.drop_left]
  simp [hc]

/-- C9 witness: a share link with a query string and extra path segments
after the first alphanumeric identifier character is accepted. -/
theorem loom_whitelist_match_ignores_suffix_witness :
    validate_loom_url (fun _ => true) ("https://www.loom.com/share/a?t=5&x=/extra".data) = true :=
  loom_whitelist_match_ignores_suffix (fun _ => true)
    ("https://www.loom.com/share/a?t=5&x=/extra".data) ("https://www.loom.com/share/".data)
    ("?t=5&x=/extra".data) 'a' (by decide) (by decide) rfl (by decide) (by decide)

/-!  ## Claim theorems: Ollama client -/

/-- C7: whenever the text-generation service call fails (any exception
from the request or from JSON decoding), `get_ai_response` returns the
literal diagnostic string built from the error, and — being a total
function of the service outcome — never lets an exception escape. -/
theorem get_ai_response_failure_diagnostic (service : String → String → OllamaOutcome)
    (prompt system_msg e : String) (h : service prompt system_msg = .failure e) :
    get_ai_response service prompt system_msg =
      "Connection error: " ++ e ++ ". Make sure Ollama is running!" := by
  rw [get_ai_response, h]

/-- C7 witness: a concrete timeout failure yields the diagnostic string. -/
theorem get_ai_response_failure_diagnostic_witness :
    get_ai_response (fun _ _ => OllamaOutcome.failure "HTTPConnectionPool timeout") "p" "s" =
      "Connection error: " ++ "HTTPConnectionPool timeout" ++ ". Make sure Ollama is running!" :=
  get_ai_response_failure_diagnostic (fun _ _ => OllamaOutcome.failure "HTTPConnectionPool timeout")
    "p" "s" "HTTPConnectionPool timeout" rfl

/-!  ## Claim theorems: persistence gateway -/

/-- C1 (evaluation at the failing input): for a completed session's
candidate record the Supabase row has exactly the fifteen projected
fields, but its `generated_questions` and `loom_video_url` fields are
null — the raw question text is stored under
`generated_questions_full_text` and the validated links under
`video_responses`, keys the projection never reads. -/
theorem supabase_row_drops_questions_and_video_url :
    (supabase_data c1_record).map Prod.fst =
      ["name", "email", "phone", "experience", "position", "location",
       "programming_languages", "frameworks", "databases", "tools", "cloud_platforms",
       "other_skills", "generated_questions", "loom_video_url", "status"] ∧
    dictGet (supabase_data c1_record) "generated_questions" = some Value.vNull ∧
    dictGet (supabase_data c1_record) "loom_video_url" = some Value.vNull ∧
    dictGet c1_record "generated_questions_full_text" = some (Value.vStr c1_full_text) ∧
    (dictGet c1_record "video_responses").isSome = true :=
  ⟨rfl, rfl, rfl, rfl, rfl⟩

/-- C2 (evaluation at the failing input): with `SUPABASE_URL` and
`SUPABASE_KEY` absent from the environment, constructing the
`SupabaseClient` raises — `app.py` lines 140-142 run this constructor at
module scope with no handler, so the exception reaches the session and
no save is ever routed through the fallback. -/
theorem missing_credentials_raise_at_init :
    SupabaseClient_init (fun _ => none) = Except.error "supabase_url is required" := rfl

/-- C3: when the remote insert raises, `save_candidate` appends exactly
one entry to the local log — the original record extended with a
`timestamp` and the captured non-empty `supabase_error` — and returns
the local-fallback success outcome carrying the error; when reading or
rewriting the local log itself raises, it instead returns a
not-persisted failure outcome carrying that error, without raising. -/
theorem save_fallback_appends_record (cd : Dict) (entries : List Dict) (now emsg : String)
    (hts : dictGet cd "timestamp" = none) (hse : dictGet cd "supabase_error" = none)
    (hne : emsg ≠ "") :
    save_candidate (fun _ => RemoteOutcome.raised emsg) (LocalLog.readable entries) none now cd =
      ({ success := true, fallback := some "json", error := some emsg },
       cd ++ [("timestamp", Value.vStr now), ("supabase_error", Value.vStr emsg)],
       some (entries ++
         [cd ++ [("timestamp", Value.vStr now), ("supabase_error", Value.vStr emsg)]])) ∧
    dictGet (cd ++ [("timestamp", Value.vStr now), ("supabase_error", Value.vStr emsg)])
      "supabase_error" = some (Value.vStr emsg) ∧
    emsg ≠ "" ∧
    (∀ wmsg, (save_candidate (fun _ => RemoteOutcome.raised emsg) (LocalLog.readable entries)
      (some wmsg) now cd).1 = { success := false, error := some wmsg }) ∧
    (∀ m wr, save_candidate (fun _ => RemoteOutcome.raised emsg) (LocalLog.readRaises m) wr now cd =
      ({ success := false, error := some m }, cd, none)) ∧
    (save_candidate (fun _ => RemoteOutcome.raised emsg) LocalLog.missing none now cd).2.2 =
      some [cd ++ [("timestamp", Value.vStr now), ("supabase_error", Value.vStr emsg)]] := by
  have hmid : dictGet (cd ++ [("timestamp", Value.vStr now)]) "supabase_error" = none := by
    rw [dictGet_append_of_none cd _ "supabase_error" hse]
    simp [dictGet]
  have hcd : dictSet (dictSet cd "timestamp" (Value.vStr now)) "supabase_error"
      (Value.vStr emsg) =
      cd ++ [("timestamp", Value.vStr now), ("supabase_error", Value.vStr emsg)] := by
    rw [dictSet_eq_append cd "timestamp" (Value.vStr now) hts,
      dictSet_eq_append _ "supabase_error" (Value.vStr emsg) hmid, List.append_assoc]
    rfl
  refine ⟨?_, ?_, hne, ?_, ?_, ?_⟩
  · simp only [save_candidate, save_to_json, hcd]
  · rw [dictGet_append_of_none cd _ "supabase_error" hse]
    simp [dictGet]
  · intro wmsg
    simp only [save_candidate, save_to_json]
  · intro m wr
    rfl
  · simp only [save_candidate, save_to_json, hcd]

/-- C3 witness: a concrete record and remote failure, an empty initial
log, appending succeeds. -/
theorem save_fallback_appends_record_witness :
    save_candidate (fun _ => RemoteOutcome.raised "network unreachable") (LocalLog.readable [])
      none "2026-02-03T10:00:00" [("name", Value.vStr "Ada Lovelace")] =
      ({ success := true, fallback := some "json", error := some "network unreachable" },
       [("name", Value.vStr "Ada Lovelace")] ++
         [("timestamp", Value.vStr "2026-02-03T10:00:00"),
          ("supabase_error", Value.vStr "network unreachable")],
       some ([] ++ [[("name", Value.vStr "Ada Lovelace")] ++
         [("timestamp", Value.vStr "2026-02-03T10:00:00"),
          ("supabase_error", Value.vStr "network unreachable")]])) :=
  (save_fallback_appends_record [("name", Value.vStr "Ada Lovelace")] [] "2026-02-03T10:00:00"
    "network unreachable" rfl rfl (by decide)).1

/-- C8 counterexample: on the local-fallback path `save_candidate`
mutates the record handed to it — after the call the caller's record
has gained `timestamp` and `supabase_error` keys it did not hold before. -/
theorem save_mutates_record_on_fallback :
    (save_candidate (fun _ => RemoteOutcome.raised "network unreachable") (LocalLog.readable [])
        none "2026-02-03T10:00:00" [("name", Value.vStr "Ada Lovelace")]).2.1 ≠
      [("name", Value.vStr "Ada Lovelace")] ∧
    dictGet ((save_candidate (fun _ => RemoteOutcome.raised "network unreachable")
        (LocalLog.readable []) none "2026-02-03T10:00:00"
        [("name", Value.vStr "Ada Lovelace")]).2.1) "supabase_error" =
      some (Value.vStr "network unreachable") ∧
    dictGet [("name", Value.vStr "Ada Lovelace")] "supabase_error" = none := by
  refine ⟨?_, rfl, rfl⟩
  intro h
  have hl : (3 : Nat) = 1 := congrArg List.length h
  omega

/-- C8 (amended): `save_candidate` leaves the caller's record unchanged
on the remote-success path; on the local-fallback path it mutates it by
adding a `timestamp` entry and a `supabase_error` entry, leaving the
value of every other key unchanged. -/
theorem save_record_mutation_scope (cd : Dict) (now e : String) (entries : List Dict) :
    (∀ row, (save_candidate (fun _ => RemoteOutcome.inserted row) (LocalLog.readable entries)
      none now cd).2.1 = cd) ∧
    dictGet ((save_candidate (fun _ => RemoteOutcome.raised e) (LocalLog.readable entries)
      none now cd).2.1) "supabase_error" = some (Value.vStr e) ∧
    dictGet ((save_candidate (fun _ => RemoteOutcome.raised e) (LocalLog.readable entries)
      none now cd).2.1) "timestamp" = some (Value.vStr now) ∧
    (∀ k, k ≠ "timestamp" → k ≠ "supabase_error" →
      dictGet ((save_candidate (fun _ => RemoteOutcome.raised e) (LocalLog.readable entries)
        none now cd).2.1) k = dictGet cd k) := by
  have hres : (save_candidate (fun _ => RemoteOutcome.raised e) (LocalLog.readable entries)
      none now cd).2.1 =
      dictSet (dictSet cd "timestamp" (Value.vStr now)) "supabase_error" (Value.vStr e) := rfl
  refine ⟨fun row => rfl, ?_, ?_, ?_⟩
  · rw [hres, dictGet_dictSet_self]
  · rw [hres, dictGet_dictSet_ne _ _ _ _ (by simp), dictGet_dictSet_self]
  · intro k hk1 hk2
    rw [hres, dictGet_dictSet_ne _ _ _ _ (Ne.symm hk2), dictGet_dictSet_ne _ _ _ _ (Ne.symm hk1)]

/-- C8 witness: concrete record, remote success leaves it untouched;
remote failure adds the two bookkeeping keys and keeps `name` intact. -/
theorem save_record_mutation_scope_witness :
    (save_candidate (fun _ => RemoteOutcome.inserted []) (LocalLog.readable []) none "T"
      [("name", Value.vStr "Ada")]).2.1 = [("name", Value.vStr "Ada")] ∧
    dictGet ((save_candidate (fun _ => RemoteOutcome.raised "boom") (LocalLog.readable []) none "T"
      [("name", Value.vStr "Ada")]).2.1) "supabase_error" = some (Value.vStr "boom") ∧
    dictGet ((save_candidate (fun _ => RemoteOutcome.raised "boom") (LocalLog.readable []) none "T"
      [("name", Value.vStr "Ada")]).2.1) "name" = dictGet [("name", Value.vStr "Ada")] "name" := by
  have h := save_record_mutation_scope [("name", Value.vStr "Ada")] "T" "boom" []
  exact ⟨h.1 [], h.2.1, h.2.2.2 "name" (by decide) (by decide)⟩

/-!  ## Claim theorems: wizard submission -/

/-- C4: with `N` parsed questions and `count ≤ N` validated video
responses, submitting the form keeps the machine in the Questions step
with an aggregate error and no save while `count < N`; when
`count = N` (including `N = 0`) the persistence save is invoked exactly
once and the machine advances to Complete exactly when the save
succeeds. -/
theorem submit_gate_complete (N count : Nat) (hle : count ≤ N) (saveResult : SaveResult) :
    (count < N → submit_video_responses N count saveResult =
      { step := 3,
        errorMsg :=
          some "Please provide valid Loom video links for all questions before submitting.",
        saveCalls := 0 }) ∧
    (count = N → (submit_video_responses N count saveResult).saveCalls = 1 ∧
      ((submit_video_responses N count saveResult).step = 4 ↔ saveResult.success = true)) ∧
    (saveResult.success = true →
      ((submit_video_responses N count saveResult).step = 4 ↔ count = N)) := by
  refine ⟨?_, ?_, ?_⟩
  · intro h
    simp [submit_video_responses, h]
  · intro h
    subst h
    cases hs : saveResult.success <;>
      simp [submit_video_responses, lt_irrefl, save_candidate_hybrid, hs]
  · intro hs
    rcases lt_or_eq_of_le hle with hlt | heq
    · constructor
      · intro h4
        simp [submit_video_responses, hlt] at h4
      · intro h
        exact absurd h (Nat.ne_of_lt hlt)
    · subst heq
      simp [submit_video_responses, lt_irrefl, save_candidate_hybrid, hs]

/-- C4 witness: with zero questions and zero responses the transition is
accepted — the save runs once and the step advances exactly when the
save succeeds. -/
theorem submit_gate_complete_witness :
    (submit_video_responses 0 0 { success := true }).saveCalls = 1 ∧
    ((submit_video_responses 0 0 { success := true }).step = 4 ↔
      ({ success := true } : SaveResult).success = true) :=
  (submit_gate_complete 0 0 (le_refl 0) { success := true }).2.1 rfl
